import Mathlib

/-!
Verification development for the chat-list row layout module
(`dialogs/ui/dialogs_layout.cpp`).

The module's decision logic is embedded shallowly: strings are lists of
characters, machine `int` values are `Int` (or `Nat` where the source value
is a count that is never negative), opaque external capabilities (font text
measurement) are function parameters, and the painting functions are modelled
as pure functions from the row/paint state to either the chosen values or the
list of paint events they emit, in source order.
-/

namespace DialogsLayout

/-- Badge style flags and metrics, from `UnreadBadgeStyle`
(`dialogs_layout.h` fields used by `dialogs_layout.cpp`): the boolean
state flags plus the fixed badge height (`size`) and horizontal text
padding (`padding`). -/
structure UnreadBadgeStyle where
  muted : Bool := false
  active : Bool := false
  selected : Bool := false
  size : Nat := 19
  padding : Nat := 5
deriving Repr, DecidableEq

/-- The bitmap-cache color index computed inside
`PaintUnreadBadge(QPainter&, const QRect&, const UnreadBadgeStyle&)`:
`int index = (st.muted ? 0x03 : 0x00) + (st.active ? 0x02 : (st.selected ? 0x01 : 0x00));` -/
def badgeColorIndex (st : UnreadBadgeStyle) : Nat :=
  (if st.muted then 3 else 0) + (if st.active then 2 else if st.selected then 1 else 0)

/-- Source `ComputeUnreadBadgeText(unreadCount, allowDigits)`:
`return (allowDigits > 0) && (unreadCount.size() > allowDigits + 1)
  ? qsl("..") + unreadCount.mid(unreadCount.size() - allowDigits)
  : unreadCount;`
`QString` is modelled as `List Char`; `mid(pos)` is `drop pos`. -/
def ComputeUnreadBadgeText (unreadCount : List Char) (allowDigits : Int) : List Char :=
  if 0 < allowDigits ∧ allowDigits + 1 < (unreadCount.length : Int) then
    '.' :: '.' :: unreadCount.drop (((unreadCount.length : Int) - allowDigits).toNat)
  else
    unreadCount

/-- Result of `CountUnreadBadgeSize` (a `QSize`). -/
structure BadgeSize where
  width : Nat
  height : Nat
deriving Repr, DecidableEq

/-- Source `CountUnreadBadgeSize(unreadCount, st, allowDigits)`: measures the
(possibly truncated) badge text with the style's font and returns
`{ max(unreadWidth + 2 * st.padding, unreadRectHeight), unreadRectHeight }`.
The font's text measurement `st.font->width(text)` is an external
capability, passed as `fontWidth`. -/
def CountUnreadBadgeSize (fontWidth : List Char → Nat) (unreadCount : List Char)
    (st : UnreadBadgeStyle) (allowDigits : Int) : BadgeSize :=
  let text := ComputeUnreadBadgeText unreadCount allowDigits
  let unreadRectHeight := st.size
  let unreadWidth := fontWidth text
  { width := max (unreadWidth + 2 * st.padding) unreadRectHeight
    height := unreadRectHeight }

/-- The three send-state glyphs of the row (`st::dialogsSendingIcon`,
`st::dialogsSentIcon`, `st::dialogsReceivedIcon`, each in its
active/over/plain color variant, which the selection logic does not
distinguish). -/
inductive SendStateIcon where
  | sending
  | sent
  | received
deriving Repr, DecidableEq

/-- The `sendStateIcon` lambda of `PaintRow`: no icon without a thread;
with a draft, the sending icon exactly when `draft->saveRequestId` is
non-zero; otherwise, for `item && !item->isEmpty() && item->needCheck()`,
the sent/received icons when neither sending nor failed (by
`item->unread(thread)`), the sending icon when sending or failed; and no
icon in the remaining cases. -/
def sendStateIcon (hasThread hasDraft : Bool) (draftSaveRequestId : Nat)
    (hasItem itemEmpty needCheck isSending hasFailed unreadByThread : Bool) :
    Option SendStateIcon :=
  if !hasThread then
    none
  else if hasDraft then
    if draftSaveRequestId ≠ 0 then some .sending else none
  else if hasItem && (!itemEmpty && needCheck) then
    if !isSending && !hasFailed then
      if unreadByThread then some .sent else some .received
    else
      some .sending
  else
    none

/-- The state observed by the `PaintRow` template: the session/support
flag, the raw `draft` argument (before the support-mode nulling at the top
of `PaintRow`), the flags feeding the promotion check
(`history && history->useTopPromotion()` and `context.search`), the
support-helper occupation check, the item/thread presence and item flags,
the pinned-dialog condition inputs
(`entry->isPinnedDialog(context.filter)`, `context.filter`,
`entry->fixedOnTopIndex()`), whether the send-action painter painted
(`ShowSendActionInDialogs(thread) && sendActionPainter()->paint(...)`),
the corner inputs (`from` non-null, `ChatTypeIcon(from, context)`
non-null), and the geometry `context.width` / `context.st->nameLeft`. -/
structure PaintRowState where
  supportMode : Bool
  draftPresent : Bool
  draftSaveRequestId : Nat
  hasHistory : Bool
  useTopPromotion : Bool
  searchContext : Bool
  promoMessageEmpty : Bool
  occupiedBySomeone : Bool
  hasThread : Bool
  hasItem : Bool
  itemEmpty : Bool
  itemNeedCheck : Bool
  itemSending : Bool
  itemFailed : Bool
  itemUnreadByThread : Bool
  pinnedDialog : Bool
  hasFilter : Bool
  fixedOnTopIndex : Bool
  sendActionPainted : Bool
  fromPresent : Bool
  chatTypeIconSome : Bool
  width : Nat
  nameLeft : Nat
deriving Repr, DecidableEq

/-- The draft pointer after the support-mode nulling at the top of
`PaintRow`: `if (supportMode) { draft = nullptr; }`. -/
def effectiveDraft (s : PaintRowState) : Bool :=
  !s.supportMode && s.draftPresent

/-- Source `const auto promoted = (history && history->useTopPromotion()) && !context.search;` -/
def promotedRow (s : PaintRowState) : Bool :=
  (s.hasHistory && s.useTopPromotion) && !s.searchContext

/-- The pinned-icon condition repeated in the trailing branches:
`entry->isPinnedDialog(context.filter) && (context.filter || !entry->fixedOnTopIndex())`. -/
def pinnedIconShown (s : PaintRowState) : Bool :=
  s.pinnedDialog && (s.hasFilter || !s.fixedOnTopIndex)

/-- Guard of the promotion-banner trailing branch:
`promoted && !history->topPromotionMessage().isEmpty()`. -/
def trailingPromo (s : PaintRowState) : Bool :=
  promotedRow s && !s.promoMessageEmpty

/-- Guard of the draft / support-occupied trailing branch:
`draft || (supportMode && ...isOccupiedBySomeone(history))`, reached only
when the promotion branch did not fire. -/
def trailingDraft (s : PaintRowState) : Bool :=
  !trailingPromo s && (effectiveDraft s || (s.supportMode && s.occupiedBySomeone))

/-- Guard of the empty-history trailing branch (`else if (!item)`): a
typing/send-action indicator is attempted, otherwise the line stays blank. -/
def trailingEmptyHistory (s : PaintRowState) : Bool :=
  !trailingPromo s && (!trailingDraft s && !s.hasItem)

/-- Guard of the last-message-preview trailing branch
(`else if (!item->isEmpty())`). -/
def trailingItem (s : PaintRowState) : Bool :=
  !trailingPromo s && (!trailingDraft s && (s.hasItem && !s.itemEmpty))

/-- Guard of the final fall-through region (`else if (pinned...)`): the
message exists but is empty, and at most a pinned icon is drawn. -/
def trailingPinnedOrBlank (s : PaintRowState) : Bool :=
  !trailingPromo s && (!trailingDraft s && (s.hasItem && s.itemEmpty))

/-- One primitive paint action of `PaintRow`, in the order the source
emits them. `draftOrOccupiedText true` is the support-mode
"occupied by" line, `draftOrOccupiedText false` the "Draft: ..." preview. -/
inductive PaintEvent where
  | background
  | ripple
  | userpic
  | narrowCounter
  | promoLabel
  | chatTypeIcon
  | dateText
  | promoMessageText
  | pinnedIcon
  | sendActionIndicator
  | draftOrOccupiedText (occupiedVariant : Bool)
  | itemPreview
  | stateIcon
  | nameText
deriving Repr, DecidableEq

/-- The sequence of paint actions performed by one `PaintRow` call, in
source order: background fill, ripple, one userpic variant; then either
the narrow early return (painting the counter overlay only for
`!draft && item && !item->isEmpty()`), or the corner content, exactly one
trailing branch, the optional send-state icon and the name. -/
def paintRowEvents (s : PaintRowState) : List PaintEvent :=
  let draft := effectiveDraft s
  let head := [PaintEvent.background, PaintEvent.ripple, PaintEvent.userpic]
  if s.width ≤ s.nameLeft then
    head ++ (if !draft && (s.hasItem && !s.itemEmpty) then [PaintEvent.narrowCounter] else [])
  else
    let promoted := promotedRow s
    let corner :=
      if promoted then [PaintEvent.promoLabel]
      else if s.fromPresent && s.chatTypeIconSome then [PaintEvent.chatTypeIcon]
      else []
    let trailing :=
      if promoted && !s.promoMessageEmpty then
        [PaintEvent.promoMessageText]
      else if draft || (s.supportMode && s.occupiedBySomeone) then
        (if !promoted then [PaintEvent.dateText] else [])
          ++ (if pinnedIconShown s then [PaintEvent.pinnedIcon] else [])
          ++ (if s.sendActionPainted then [PaintEvent.sendActionIndicator]
              else [PaintEvent.draftOrOccupiedText s.supportMode])
      else if !s.hasItem then
        (if pinnedIconShown s then [PaintEvent.pinnedIcon] else [])
          ++ (if s.sendActionPainted then [PaintEvent.sendActionIndicator] else [])
      else if !s.itemEmpty then
        (if s.hasThread && !promoted then [PaintEvent.dateText] else [])
          ++ [PaintEvent.itemPreview]
      else if pinnedIconShown s then
        [PaintEvent.pinnedIcon]
      else
        []
    let stateIconEvents :=
      if (sendStateIcon s.hasThread draft s.draftSaveRequestId s.hasItem s.itemEmpty
          s.itemNeedCheck s.itemSending s.itemFailed s.itemUnreadByThread).isSome
      then [PaintEvent.stateIcon]
      else []
    head ++ corner ++ trailing ++ stateIconEvents ++ [PaintEvent.nameText]

/-- The row state gathered by `RowPainter::Paint(p, row, videoUserpic,
context)` for a live list row, before it computes the display flags:
`entry->chatListUnreadCount()`, `entry->chatListUnreadMark()`,
`entry->chatListMutedBadge()`, `entry->chatListMessage()`,
`thread->unreadMentions().has()`, `thread->unreadReactions().has()`,
`entry->folder()`, and the pinned inputs. -/
structure LiveRowInput where
  hasHistory : Bool
  hasThread : Bool
  unreadCount : Nat
  unreadMark : Bool
  unreadMuted : Bool
  hasItem : Bool
  itemIsUnreadMention : Bool
  hasUnreadMentions : Bool
  hasUnreadReactions : Bool
  inFolder : Bool
  pinnedDialog : Bool
  hasFilter : Bool
  fixedOnTopIndex : Bool
deriving Repr, DecidableEq

/-- Source `const auto displayMentionBadge = thread && thread->unreadMentions().has();` -/
def displayMentionBadge (r : LiveRowInput) : Bool :=
  r.hasThread && r.hasUnreadMentions

/-- Source `const auto displayReactionBadge = !displayMentionBadge && thread
  && thread->unreadReactions().has();` -/
def displayReactionBadge (r : LiveRowInput) : Bool :=
  !displayMentionBadge r && (r.hasThread && r.hasUnreadReactions)

/-- Source `const auto mentionOrReactionMuted = (entry->folder() != nullptr)
  || (!displayMentionBadge && unreadMuted);` -/
def mentionOrReactionMuted (r : LiveRowInput) : Bool :=
  r.inFolder || (!displayMentionBadge r && r.unreadMuted)

/-- The `displayUnreadCounter` lambda of `RowPainter::Paint`: suppressed
when the mention badge shows, the unread count is exactly one and the
chat-list message itself is the unread mention; otherwise
`unreadCount > 0`. -/
def displayUnreadCounter (r : LiveRowInput) : Bool :=
  if displayMentionBadge r && (r.unreadCount == 1 && (r.hasItem && r.itemIsUnreadMention)) then
    false
  else
    decide (0 < r.unreadCount)

/-- Source `const auto displayUnreadMark = !displayUnreadCounter
  && !displayMentionBadge && history && unreadMark;` -/
def displayUnreadMark (r : LiveRowInput) : Bool :=
  !displayUnreadCounter r && (!displayMentionBadge r && (r.hasHistory && r.unreadMark))

/-- Source `const auto displayPinnedIcon = !displayUnreadCounter
  && !displayMentionBadge && !displayReactionBadge && !displayUnreadMark
  && entry->isPinnedDialog(context.filter)
  && (context.filter || !entry->fixedOnTopIndex());` -/
def displayPinnedIcon (r : LiveRowInput) : Bool :=
  !displayUnreadCounter r && (!displayMentionBadge r && (!displayReactionBadge r
    && (!displayUnreadMark r && (r.pinnedDialog && (r.hasFilter || !r.fixedOnTopIndex)))))

/-- The `cloudDraft` lambda of `RowPainter::Paint`: the cloud draft is
consulted only under `thread && (!item || (!unreadCount && !unreadMark))`,
and returned only when `!Data::DraftIsNull(draft)`; the result is whether
a (non-null) cloud draft is used for the row. -/
def resolveCloudDraft (r : LiveRowInput) (draftIsNull : Bool) : Bool :=
  if r.hasThread && (!r.hasItem || (r.unreadCount == 0 && !r.unreadMark)) then
    !draftIsNull
  else
    false

/-- What one `PaintWideCounter` call painted, plus the remaining
available width it returns. -/
structure WideCounterResult where
  paintedBadge : Bool
  paintedPinned : Bool
  paintedMention : Bool
  paintedReaction : Bool
  availableWidth : Int
deriving Repr, DecidableEq

/-- Source `PaintWideCounter`: if the counter or the mark is displayed, paint the
unread pill and subtract `badge.width() + st.padding`; else if the pinned
icon is displayed, paint it and subtract `icon.width() +
st::dialogsUnreadPadding`; then, independently, if a mention or reaction
badge is displayed, paint it (mention beating reaction) and subtract its
width plus padding. Widths of the painted primitives are external inputs. -/
def PaintWideCounter (availableWidth : Int)
    (badgeWidth badgePadding pinnedWidth unreadPadding mentionBadgeWidth : Int)
    (displayCounter displayMark displayMention displayReaction displayPinned : Bool) :
    WideCounterResult :=
  let first :=
    if displayCounter || displayMark then
      (true, false, availableWidth - (badgeWidth + badgePadding))
    else if displayPinned then
      (false, true, availableWidth - (pinnedWidth + unreadPadding))
    else
      (false, false, availableWidth)
  if displayMention || displayReaction then
    { paintedBadge := first.1
      paintedPinned := first.2.1
      paintedMention := displayMention
      paintedReaction := !displayMention
      availableWidth := first.2.2 - (mentionBadgeWidth + unreadPadding) }
  else
    { paintedBadge := first.1
      paintedPinned := first.2.1
      paintedMention := false
      paintedReaction := false
      availableWidth := first.2.2 }

/-- The color-index formula exactly as the specification words it:
`2×mutedFlag + 2×activeFlag + selectedFlag` (a refinement target, to be
compared with `badgeColorIndex` from the source). -/
def claimedBadgeColorIndex (st : UnreadBadgeStyle) : Nat :=
  2 * st.muted.toNat + 2 * st.active.toNat + st.selected.toNat

/-- Claim C2 counterexample: for a muted, non-active, non-selected style
the code computes color index 3 (`0x03 + 0x00`), while the claimed
formula `2×muted + 2×active + selected` gives 2. -/
theorem badgeColorIndex_counterexample :
    badgeColorIndex { muted := true, active := false, selected := false }
        = 3
      ∧ claimedBadgeColorIndex { muted := true, active := false, selected := false }
        = 2
      ∧ badgeColorIndex { muted := true, active := false, selected := false }
        ≠ claimedBadgeColorIndex { muted := true, active := false, selected := false } := by
  decide

/-- Claim C2 (amended): the badge bitmap-cache color index used by
`PaintUnreadBadge` equals `3×mutedFlag + 2×activeFlag + (¬active ∧
selected)`, i.e. muted contributes 3 and active beats selected; the index
is always below 6 and every value in 0..5 is attained, giving six
combinations in total. -/
theorem badgeColorIndex_spec (st : UnreadBadgeStyle) :
    badgeColorIndex st
        = 3 * st.muted.toNat + 2 * st.active.toNat + (!st.active && st.selected).toNat
      ∧ badgeColorIndex st < 6
      ∧ ∀ i : Nat, i < 6 → ∃ st2 : UnreadBadgeStyle, badgeColorIndex st2 = i := by
  obtain ⟨m, a, sel, sz, pd⟩ := st
  refine ⟨?_, ?_, ?_⟩
  · cases m <;> cases a <;> cases sel <;> rfl
  · cases m <;> cases a <;> cases sel <;> simp [badgeColorIndex]
  · intro i hi
    interval_cases i
    · exact ⟨{ muted := false, active := false, selected := false }, rfl⟩
    · exact ⟨{ muted := false, active := false, selected := true }, rfl⟩
    · exact ⟨{ muted := false, active := true, selected := false }, rfl⟩
    · exact ⟨{ muted := true, active := false, selected := false }, rfl⟩
    · exact ⟨{ muted := true, active := false, selected := true }, rfl⟩
    · exact ⟨{ muted := true, active := true, selected := false }, rfl⟩

/-- Witness for `badgeColorIndex_spec` at the muted+selected style and
index 4. -/
theorem badgeColorIndex_spec_witness :
    badgeColorIndex { muted := true, active := false, selected := true } = 4
      ∧ ∃ st2 : UnreadBadgeStyle, badgeColorIndex st2 = 4 := by
  obtain ⟨h1, _, h3⟩ :=
    badgeColorIndex_spec { muted := true, active := false, selected := true }
  exact ⟨by rw [h1]; rfl, h3 4 (by decide)⟩

/-- Claim C3 counterexample: with `allowDigits = 3` the count string
`"12345"` truncates to `".."` plus its last three characters, `"..345"`,
not `"..2345"` as the claim's example states. -/
theorem computeUnreadBadgeText_counterexample :
    ComputeUnreadBadgeText "12345".toList 3 = "..345".toList
      ∧ ComputeUnreadBadgeText "12345".toList 3 ≠ "..2345".toList := by
  decide

/-- Claim C3 (amended): `ComputeUnreadBadgeText s allowDigits` returns `s`
unchanged when `allowDigits ≤ 0` or `len s ≤ allowDigits + 1`, and
otherwise returns `".."` followed by the last `allowDigits` characters of
`s` (so `allowDigits = 1` on `"523"` gives `"..3"`, and `allowDigits = 3`
on `"12345"` gives `"..345"`). -/
theorem computeUnreadBadgeText_spec (s : List Char) (allowDigits : Int) :
    (allowDigits ≤ 0 ∨ (s.length : Int) ≤ allowDigits + 1 →
      ComputeUnreadBadgeText s allowDigits = s)
      ∧ (0 < allowDigits → allowDigits + 1 < (s.length : Int) →
        ∃ front back : List Char,
          s = front ++ back
            ∧ (back.length : Int) = allowDigits
            ∧ ComputeUnreadBadgeText s allowDigits = '.' :: '.' :: back) := by
  constructor
  · intro h
    unfold ComputeUnreadBadgeText
    rw [if_neg]
    rintro ⟨h1, h2⟩
    omega
  · intro h1 h2
    refine ⟨s.take (((s.length : Int) - allowDigits).toNat),
      s.drop (((s.length : Int) - allowDigits).toNat), ?_, ?_, ?_⟩
    · exact (List.take_append_drop _ s).symm
    · rw [List.length_drop]
      omega
    · unfold ComputeUnreadBadgeText
      rw [if_pos ⟨h1, h2⟩]

/-- Witness for `computeUnreadBadgeText_spec`: the claim's own first
example, `allowDigits = 1` on `"523"`. -/
theorem computeUnreadBadgeText_spec_witness :
    ∃ front back : List Char,
      "523".toList = front ++ back
        ∧ (back.length : Int) = 1
        ∧ ComputeUnreadBadgeText "523".toList 1 = '.' :: '.' :: back :=
  (computeUnreadBadgeText_spec "523".toList 1).2 (by decide) (by decide)

/-- Claim C1: for every row state (and paint context), exactly one of the
five trailing-line branches of `PaintRow` is active: the promotion-banner
text, the draft/occupied line, the typing-indicator-or-blank branch, the
last-message preview, and the final pinned-icon-or-nothing region — the
guards are mutually exclusive and exhaustive. -/
theorem trailing_exactly_one (s : PaintRowState) :
    (trailingPromo s).toNat + (trailingDraft s).toNat + (trailingEmptyHistory s).toNat
      + (trailingItem s).toNat + (trailingPinnedOrBlank s).toNat = 1 := by
  obtain ⟨sm, dp, dsr, hh, utp, sc, pme, obs, ht, hi, ie, inc, its, itf, iut,
    pd, hf, fot, sap, fp, cti, w, nl⟩ := s
  cases sm <;> cases dp <;> cases hh <;> cases utp <;> cases sc <;> cases pme <;>
    cases obs <;> cases hi <;> cases ie <;> rfl

/-- Claim C4: in `RowPainter::Paint` for a live row, `displayPinnedIcon`
implies that the unread counter, unread mark, mention badge and reaction
badge display flags are all false; and in `PaintWideCounter` the pinned
icon is painted exactly in the branch where neither the counter nor the
mark was painted and the pinned flag is set. -/
theorem pinnedIcon_suppression (r : LiveRowInput) (availableWidth badgeWidth badgePadding
    pinnedWidth unreadPadding mentionBadgeWidth : Int) :
    (displayPinnedIcon r = true →
      displayUnreadCounter r = false ∧ displayUnreadMark r = false
        ∧ displayMentionBadge r = false ∧ displayReactionBadge r = false)
      ∧ (∀ dc dm dmn dr dpin : Bool,
        (PaintWideCounter availableWidth badgeWidth badgePadding pinnedWidth
            unreadPadding mentionBadgeWidth dc dm dmn dr dpin).paintedPinned = true
          ↔ (dc = false ∧ dm = false ∧ dpin = true)) := by
  constructor
  · intro h
    simp only [displayPinnedIcon, Bool.and_eq_true, Bool.not_eq_eq_eq_not,
      Bool.not_true] at h
    exact ⟨h.1, h.2.2.2.1, h.2.1, h.2.2.1⟩
  · intro dc dm dmn dr dpin
    cases dc <;> cases dm <;> cases dmn <;> cases dr <;> cases dpin <;>
      simp [PaintWideCounter]

/-- A concrete live-row state: pinned, a non-empty last message, and no
unread counter, mark, mention or reaction. -/
def pinnedQuietRow : LiveRowInput where
  hasHistory := true
  hasThread := true
  unreadCount := 0
  unreadMark := false
  unreadMuted := false
  hasItem := true
  itemIsUnreadMention := false
  hasUnreadMentions := false
  hasUnreadReactions := false
  inFolder := false
  pinnedDialog := true
  hasFilter := false
  fixedOnTopIndex := false

/-- Witness for `pinnedIcon_suppression`: a pinned row with no unread
state displays the pinned icon with all four flags suppressed, and the
wide layout paints the pinned icon in that state. -/
theorem pinnedIcon_suppression_witness :
    (displayUnreadCounter pinnedQuietRow = false
      ∧ displayUnreadMark pinnedQuietRow = false
      ∧ displayMentionBadge pinnedQuietRow = false
      ∧ displayReactionBadge pinnedQuietRow = false)
      ∧ (PaintWideCounter 100 10 2 8 4 9 false false false false true).paintedPinned
          = true := by
  constructor
  · exact (pinnedIcon_suppression pinnedQuietRow 100 10 2 8 4 9).1 (by decide)
  · exact ((pinnedIcon_suppression pinnedQuietRow 100 10 2 8 4 9).2
      false false false false true).mpr ⟨rfl, rfl, rfl⟩

/-- Claim C5: full characterization of the send-state icon selection: no
icon without a thread; with a draft, the sending icon exactly when the
save request id is non-zero (none otherwise); without a draft, for a
non-empty message needing a delivery check, sending when sending or
failed, sent when neither and unread by the thread, received when neither
and read; and no icon in all remaining cases. -/
theorem sendStateIcon_spec (hasThread hasDraft : Bool) (draftSaveRequestId : Nat)
    (hasItem itemEmpty needCheck isSending hasFailed unreadByThread : Bool) :
    (hasThread = false →
      sendStateIcon hasThread hasDraft draftSaveRequestId hasItem itemEmpty needCheck
        isSending hasFailed unreadByThread = none)
      ∧ (hasThread = true → hasDraft = true →
        (sendStateIcon hasThread hasDraft draftSaveRequestId hasItem itemEmpty needCheck
            isSending hasFailed unreadByThread = some .sending
          ↔ draftSaveRequestId ≠ 0))
      ∧ (hasThread = true → hasDraft = true → draftSaveRequestId = 0 →
        sendStateIcon hasThread hasDraft draftSaveRequestId hasItem itemEmpty needCheck
          isSending hasFailed unreadByThread = none)
      ∧ (hasThread = true → hasDraft = false → hasItem = true → itemEmpty = false →
        needCheck = true →
        ((isSending = true ∨ hasFailed = true) →
          sendStateIcon hasThread hasDraft draftSaveRequestId hasItem itemEmpty needCheck
            isSending hasFailed unreadByThread = some .sending)
          ∧ (isSending = false → hasFailed = false →
            (unreadByThread = true →
              sendStateIcon hasThread hasDraft draftSaveRequestId hasItem itemEmpty
                needCheck isSending hasFailed unreadByThread = some .sent)
              ∧ (unreadByThread = false →
                sendStateIcon hasThread hasDraft draftSaveRequestId hasItem itemEmpty
                  needCheck isSending hasFailed unreadByThread = some .received)))
      ∧ (hasThread = true → hasDraft = false →
        (hasItem = false ∨ itemEmpty = true ∨ needCheck = false) →
        sendStateIcon hasThread hasDraft draftSaveRequestId hasItem itemEmpty needCheck
          isSending hasFailed unreadByThread = none) := by
  refine ⟨?_, ?_, ?_, ?_, ?_⟩
  · intro h; subst h; simp [sendStateIcon]
  · intro h1 h2; subst h1; subst h2
    by_cases hz : draftSaveRequestId = 0 <;> simp [sendStateIcon, hz]
  · intro h1 h2 h3; subst h1; subst h2; simp [sendStateIcon, h3]
  · intro h1 h2 h3 h4 h5; subst h1; subst h2; subst h3; subst h4; subst h5
    constructor
    · rintro (h | h) <;> simp [sendStateIcon, h]
    · intro h6 h7
      exact ⟨fun h => by simp [sendStateIcon, h, h6, h7],
        fun h => by simp [sendStateIcon, h, h6, h7]⟩
  · intro h1 h2 h3; subst h1; subst h2
    rcases h3 with h | h | h <;> simp [sendStateIcon, h]

/-- Witness for `sendStateIcon_spec`: a non-empty unread message needing a
delivery check, neither sending nor failed, shows the sent icon. -/
theorem sendStateIcon_spec_witness :
    sendStateIcon true false 0 true false true false false true = some .sent :=
  (((sendStateIcon_spec true false 0 true false true false false
    true).2.2.2.1 rfl rfl rfl rfl rfl).2 rfl rfl).1 rfl

/-- Truncation preserves the length ordering of badge texts: if one count
string is no longer than another, its (possibly ellipsis-truncated) badge
text is no longer either. -/
theorem computeUnreadBadgeText_length_mono (a b : List Char) (d : Int)
    (h : a.length ≤ b.length) :
    (ComputeUnreadBadgeText a d).length ≤ (ComputeUnreadBadgeText b d).length := by
  unfold ComputeUnreadBadgeText
  split_ifs with ha hb hb
  · simp only [List.length_cons, List.length_drop]
    omega
  · exfalso
    obtain ⟨ha1, ha2⟩ := ha
    exact hb ⟨ha1, by omega⟩
  · obtain ⟨hb1, hb2⟩ := hb
    simp only [List.length_cons, List.length_drop]
    omega
  · exact h

/-- Claim C6: `CountUnreadBadgeSize` returns width
`max (textWidth + 2×padding) badgeHeight` and height `badgeHeight`, so the
width is never below the badge height and, for any text measurement that
is monotone in text length (fonts measure strings as non-negative sums of
glyph advances), the width is monotone in the length of the badge text. -/
theorem countUnreadBadgeSize_spec (fontWidth : List Char → Nat)
    (hmono : ∀ a b : List Char, a.length ≤ b.length → fontWidth a ≤ fontWidth b)
    (st : UnreadBadgeStyle) (s t : List Char) (allowDigits : Int)
    (hlen : s.length ≤ t.length) :
    (CountUnreadBadgeSize fontWidth s st allowDigits).width
        = max (fontWidth (ComputeUnreadBadgeText s allowDigits) + 2 * st.padding) st.size
      ∧ (CountUnreadBadgeSize fontWidth s st allowDigits).height = st.size
      ∧ st.size ≤ (CountUnreadBadgeSize fontWidth s st allowDigits).width
      ∧ (CountUnreadBadgeSize fontWidth s st allowDigits).width
          ≤ (CountUnreadBadgeSize fontWidth t st allowDigits).width := by
  refine ⟨rfl, rfl, le_max_right _ _, ?_⟩
  have hw := hmono _ _ (computeUnreadBadgeText_length_mono s t allowDigits hlen)
  simp only [CountUnreadBadgeSize]
  exact max_le_max (by omega) le_rfl

/-- Witness for `countUnreadBadgeSize_spec`: the unit-advance font on the
count strings `"7"` and `"52"` with truncation disabled. -/
theorem countUnreadBadgeSize_spec_witness :
    (CountUnreadBadgeSize List.length "7".toList {} (-1)).height
        = (19 : Nat)
      ∧ (19 : Nat) ≤ (CountUnreadBadgeSize List.length "7".toList {} (-1)).width
      ∧ (CountUnreadBadgeSize List.length "7".toList {} (-1)).width
          ≤ (CountUnreadBadgeSize List.length "52".toList {} (-1)).width := by
  obtain ⟨_, h2, h3, h4⟩ := countUnreadBadgeSize_spec List.length
    (fun a b h => h) {} "7".toList "52".toList (-1) (by decide)
  exact ⟨h2, h3, h4⟩

/-- Claim C7: when `context.width <= context.st->nameLeft`, `PaintRow`
returns early: every paint action is among background, ripple, userpic and
the narrow corner counter overlay — name, date, trailing line, send-state
icon, pinned icon and wide badges are never painted. -/
theorem narrow_early_return (s : PaintRowState) (h : s.width ≤ s.nameLeft) :
    ∀ e ∈ paintRowEvents s,
      e ∈ [PaintEvent.background, PaintEvent.ripple, PaintEvent.userpic,
        PaintEvent.narrowCounter] := by
  intro e he
  unfold paintRowEvents at he
  rw [if_pos h] at he
  simp only [List.mem_append, List.mem_cons, List.not_mem_nil, or_false] at he
  rcases he with (h1 | h1 | h1) | h1
  · simp [h1]
  · simp [h1]
  · simp [h1]
  · split at h1
    · simp only [List.mem_cons, List.not_mem_nil, or_false] at h1
      simp [h1]
    · exact absurd h1 (List.not_mem_nil e)

/-- A concrete narrow paint state: width 10, nameLeft 64, a plain row
with a non-empty message and no draft. -/
def narrowRowExample : PaintRowState where
  supportMode := false
  draftPresent := false
  draftSaveRequestId := 0
  hasHistory := true
  useTopPromotion := false
  searchContext := false
  promoMessageEmpty := true
  occupiedBySomeone := false
  hasThread := true
  hasItem := true
  itemEmpty := false
  itemNeedCheck := false
  itemSending := false
  itemFailed := false
  itemUnreadByThread := false
  pinnedDialog := false
  hasFilter := false
  fixedOnTopIndex := false
  sendActionPainted := false
  fromPresent := true
  chatTypeIconSome := false
  width := 10
  nameLeft := 64

/-- Witness for `narrow_early_return` at `narrowRowExample` and the
narrow-counter event it actually emits. -/
theorem narrow_early_return_witness :
    PaintEvent.narrowCounter ∈ paintRowEvents narrowRowExample
      ∧ PaintEvent.narrowCounter ∈ [PaintEvent.background, PaintEvent.ripple,
        PaintEvent.userpic, PaintEvent.narrowCounter] :=
  ⟨by decide, narrow_early_return narrowRowExample (by decide)
    PaintEvent.narrowCounter (by decide)⟩

/-- Claim C8: the `cloudDraft` lambda of `RowPainter::Paint` consults the
cloud draft only when a thread exists and either no chat-list message
exists or the unread count is zero and the unread mark unset; with a
message and any unread count/mark the draft is treated as absent, and the
trailing renderer is then the last-message preview (when the message is
non-empty and the row is not promoted-with-banner). -/
theorem cloudDraft_gating (r : LiveRowInput) (draftIsNull : Bool) :
    (resolveCloudDraft r draftIsNull = true →
      r.hasThread = true
        ∧ (r.hasItem = false ∨ (r.unreadCount = 0 ∧ r.unreadMark = false)))
      ∧ (r.hasItem = true → (0 < r.unreadCount ∨ r.unreadMark = true) →
        resolveCloudDraft r draftIsNull = false)
      ∧ (r.hasThread = true →
        (r.hasItem = false ∨ (r.unreadCount = 0 ∧ r.unreadMark = false)) →
        resolveCloudDraft r draftIsNull = !draftIsNull)
      ∧ (∀ s : PaintRowState, s.supportMode = false → s.draftPresent = false →
        trailingPromo s = false → s.hasItem = true → s.itemEmpty = false →
        trailingItem s = true) := by
  refine ⟨?_, ?_, ?_, ?_⟩
  · intro h
    unfold resolveCloudDraft at h
    split at h
    · rename_i hc
      simpa only [Bool.and_eq_true, Bool.or_eq_true, Bool.not_eq_true',
        beq_iff_eq] using hc
    · exact absurd h (by simp)
  · intro h1 h2
    unfold resolveCloudDraft
    rw [if_neg]
    intro hc
    simp only [Bool.and_eq_true, Bool.or_eq_true, Bool.not_eq_true',
      beq_iff_eq] at hc
    rcases hc.2 with h3 | ⟨h3, h4⟩
    · rw [h1] at h3; cases h3
    · rcases h2 with h5 | h5
      · omega
      · rw [h5] at h4; cases h4
  · intro h1 h2
    unfold resolveCloudDraft
    rw [if_pos]
    simp only [Bool.and_eq_true, Bool.or_eq_true, Bool.not_eq_true', beq_iff_eq]
    exact ⟨h1, h2⟩
  · intro s hs hd hp hi hie
    simp [trailingItem, trailingDraft, effectiveDraft, hs, hd, hp, hi, hie]

/-- A live row with five unread messages and a non-empty last message. -/
def unreadRowExample : LiveRowInput :=
  { pinnedQuietRow with unreadCount := 5, pinnedDialog := false }

/-- Witness for `cloudDraft_gating`: with a message and a positive unread
count, the cloud draft is not used even though a non-null draft exists. -/
theorem cloudDraft_gating_witness :
    resolveCloudDraft unreadRowExample false = false :=
  (cloudDraft_gating unreadRowExample false).2.1 rfl (Or.inl (by decide))

/-- Claim C10: the live-row unread counter is suppressed exactly when the
mention badge shows, the unread count is exactly one and the chat-list
message itself is the unread mention; in every other state it is displayed
exactly when the unread count is positive. -/
theorem displayUnreadCounter_spec (r : LiveRowInput) :
    (displayMentionBadge r = true ∧ r.unreadCount = 1 ∧ r.hasItem = true
        ∧ r.itemIsUnreadMention = true →
      displayUnreadCounter r = false)
      ∧ (¬(displayMentionBadge r = true ∧ r.unreadCount = 1 ∧ r.hasItem = true
          ∧ r.itemIsUnreadMention = true) →
        (displayUnreadCounter r = true ↔ 0 < r.unreadCount)) := by
  constructor
  · rintro ⟨h1, h2, h3, h4⟩
    unfold displayUnreadCounter
    rw [if_pos (by simp [h1, h2, h3, h4])]
  · intro hn
    unfold displayUnreadCounter
    rw [if_neg]
    · simp
    · intro hc
      simp only [Bool.and_eq_true, beq_iff_eq] at hc
      exact hn ⟨hc.1, hc.2.1, hc.2.2.1, hc.2.2.2⟩

/-- A live row whose single unread message is an unread mention, with the
mention badge showing. -/
def mentionRowExample : LiveRowInput :=
  { pinnedQuietRow with
    unreadCount := 1
    hasUnreadMentions := true
    itemIsUnreadMention := true
    pinnedDialog := false }

/-- Witness for `displayUnreadCounter_spec`: the counter is suppressed on
`mentionRowExample`. -/
theorem displayUnreadCounter_spec_witness :
    displayUnreadCounter mentionRowExample = false :=
  (displayUnreadCounter_spec mentionRowExample).1 (by decide)

/-- Claim C9: in support mode the supplied draft is discarded before any
layout decision (`if (supportMode) draft = nullptr;`): the effective draft
is absent, the draft/occupied trailing branch can be entered only via the
occupied-by-someone condition, the "Draft:" preview variant is never
painted (only the occupied variant can appear), and the sending icon can
come only from the message route — never from a pending draft save,
whatever `draft->saveRequestId` is. -/
theorem supportMode_draft_discarded (s : PaintRowState) (h : s.supportMode = true) :
    effectiveDraft s = false
      ∧ (trailingDraft s = true → s.occupiedBySomeone = true)
      ∧ PaintEvent.draftOrOccupiedText false ∉ paintRowEvents s
      ∧ (sendStateIcon s.hasThread (effectiveDraft s) s.draftSaveRequestId s.hasItem
          s.itemEmpty s.itemNeedCheck s.itemSending s.itemFailed s.itemUnreadByThread
            = some .sending →
        s.hasItem = true ∧ s.itemEmpty = false ∧ s.itemNeedCheck = true
          ∧ (s.itemSending = true ∨ s.itemFailed = true)) := by
  have hd : effectiveDraft s = false := by simp [effectiveDraft, h]
  refine ⟨hd, ?_, ?_, ?_⟩
  · intro ht
    unfold trailingDraft at ht
    rw [hd, h] at ht
    simp only [Bool.false_or, Bool.true_and, Bool.and_eq_true,
      Bool.not_eq_true'] at ht
    exact ht.2
  · intro hmem
    unfold paintRowEvents at hmem
    simp only [hd, h, Bool.not_false, Bool.true_and, Bool.false_or] at hmem
    split_ifs at hmem <;>
      simp only [List.mem_append, List.mem_cons, List.mem_singleton,
        List.not_mem_nil, or_false, false_or, reduceCtorEq,
        PaintEvent.draftOrOccupiedText.injEq, Bool.false_eq_true] at hmem
  · intro hic
    rw [hd] at hic
    unfold sendStateIcon at hic
    simp only [Bool.false_eq_true, if_false] at hic
    split_ifs at hic with h1 h2 h3 h4 <;> try cases hic
    simp only [Bool.and_eq_true, Bool.not_eq_true'] at h2 h3
    refine ⟨h2.1, h2.2.1, h2.2.2, ?_⟩
    rcases Bool.eq_false_or_eq_true s.itemSending with hs | hs
    · exact Or.inl hs
    · right
      rcases Bool.eq_false_or_eq_true s.itemFailed with hf | hf
      · exact hf
      · exact absurd ⟨hs, hf⟩ h3

/-- A support-mode paint state with a cloud draft whose save request is
pending, an occupied thread and an empty history. -/
def supportRowExample : PaintRowState :=
  { narrowRowExample with
    supportMode := true
    draftPresent := true
    draftSaveRequestId := 7
    occupiedBySomeone := true
    hasItem := false
    width := 320 }

/-- Witness for `supportMode_draft_discarded` at `supportRowExample`. -/
theorem supportMode_draft_discarded_witness :
    effectiveDraft supportRowExample = false
      ∧ PaintEvent.draftOrOccupiedText false ∉ paintRowEvents supportRowExample := by
  obtain ⟨h1, _, h3, _⟩ := supportMode_draft_discarded supportRowExample rfl
  exact ⟨h1, h3⟩

end DialogsLayout
